import Mathlib

/-!
# Verification of the crop-disease classification pipeline

Shallow embedding of the two applications of this repository:

* `src/multi_crop_app.py` — the multi-crop application: a hardcoded model
  registry (`model_info`), a per-crop classifier-head builder
  (`load_and_configure_model`), a fixed preprocessing transform, arg-max
  inference, and a per-crop static remedy lookup;
* `src/unnamed/part_000` — the single-crop grape application with the same
  pipeline specialised to four grape classes.

Machine reals are modelled by `ℚ` (the preprocessing and linear-layer
arithmetic is exact rational arithmetic here); 8-bit image channels by
`Fin 256`; Python `dict` lookups that can raise `KeyError` by
`Option`/`Except`-valued functions; `torch` tensors of class scores by
`List ℚ`.  The `resnet50` backbone body and the serialized weight files are
external artefacts: the backbone is abstracted as an arbitrary function from
the preprocessed input tensor to the 2048-wide feature vector that feeds
`model.fc`, while the classifier-head weights appear as explicit rational
matrices whose shapes `load_state_dict` checks.
-/

namespace Forge

/-! ## Model registry (`model_info`, src/multi_crop_app.py lines 31–586) -/

/-- One row of the hardcoded `model_info` table: weights-file path, ordered
label list, class count, classifier-head tag, and the label keys of the
per-crop `remedies` sub-table (the advisory prose bodies of the remedy
records are opaque text that no claim inspects; every one of the 23 records
carries the same twelve fields, see `standardRemedyFields`). -/
structure CropProfile where
  crop_id : String
  model_path : String
  labels : List String
  num_classes : Nat
  fc_type : String
  remedyLabels : List String
  deriving DecidableEq, Repr

/-- The twelve fields present in every record of every `remedies` sub-table
of `model_info` (the call site probes each with a membership test before
rendering it). -/
def standardRemedyFields : List String :=
  ["cause", "severity", "symptoms", "conditions_favoring", "disease_cycle",
   "impact", "season", "organic_options", "chemical_options",
   "recommended_varieties", "next_steps", "external_links"]

/-- `model_info["Grapes"]` (lines 32–128). -/
def grapesProfile : CropProfile :=
  { crop_id := "Grapes"
    model_path := "resnet50_grapes.pt"
    labels := ["Black Rot", "ESCA", "Healthy", "Leaf Blight"]
    num_classes := 4
    fc_type := "single_linear"
    remedyLabels := ["Black Rot", "ESCA", "Healthy", "Leaf Blight"] }

/-- `model_info["Potato"]` (lines 128–202). -/
def potatoProfile : CropProfile :=
  { crop_id := "Potato"
    model_path := "resnet50_potato.pt"
    labels := ["Potato___Early_blight", "Potato___Late_blight", "Potato___healthy"]
    num_classes := 3
    fc_type := "single_linear"
    remedyLabels := ["Potato___Early_blight", "Potato___Late_blight", "Potato___healthy"] }

/-- `model_info["Peanut"]` (lines 202–298). -/
def peanutProfile : CropProfile :=
  { crop_id := "Peanut"
    model_path := "resnet50_peanut.pt"
    labels := ["Peanut_rust", "Peanut_nutrition_deficiency", "Peanut_leaf_spot",
               "Peanut_healthy_leaf"]
    num_classes := 4
    fc_type := "custom_sequential_peanut"
    remedyLabels := ["Peanut_rust", "Peanut_nutrition_deficiency", "Peanut_leaf_spot",
                     "Peanut_healthy_leaf"] }

/-- `model_info["Tomato"]` (lines 298–394). -/
def tomatoProfile : CropProfile :=
  { crop_id := "Tomato"
    model_path := "resnet50_tomato.pt"
    labels := ["Tomato__Tomato_mosaic_virus", "Tomato___Bacterial_spot",
               "Tomato___Tomato_Yellow_Leaf_Curl_Virus", "Tomato__blight"]
    num_classes := 4
    fc_type := "single_linear"
    remedyLabels := ["Tomato__Tomato_mosaic_virus", "Tomato___Bacterial_spot",
                     "Tomato___Tomato_Yellow_Leaf_Curl_Virus", "Tomato__blight"] }

/-- `model_info["Rice"]` (lines 394–468). -/
def riceProfile : CropProfile :=
  { crop_id := "Rice"
    model_path := "resnet50_rice.pt"
    labels := ["Bacterialblight", "Brownspot", "Leafsmut"]
    num_classes := 3
    fc_type := "custom_sequential_new_crop"
    remedyLabels := ["Bacterialblight", "Brownspot", "Leafsmut"] }

/-- `model_info["Cashew"]` (lines 468–585). -/
def cashewProfile : CropProfile :=
  { crop_id := "Cashew"
    model_path := "resnet50_cashew.pt"
    labels := ["Cashew anthracnose", "Cashew gummosis", "Cashew healthy",
               "Cashew leaf miner", "Cashew red rust"]
    num_classes := 5
    fc_type := "single_linear"
    remedyLabels := ["Cashew anthracnose", "Cashew gummosis", "Cashew healthy",
                     "Cashew leaf miner", "Cashew red rust"] }

/-- The `model_info` registry, in source order. -/
def model_info : List CropProfile :=
  [grapesProfile, potatoProfile, peanutProfile, tomatoProfile, riceProfile, cashewProfile]

/-- The error raised by `model_info[crop]` when `crop` is not a registered
key: Python's `KeyError`, carrying the missing key.  This is the code's
realisation of the spec's `UnknownCropError`: it is the unique failure mode
of registry resolution and identifies the unregistered crop. -/
inductive RegistryError where
  | keyError (key : String)
  deriving DecidableEq, Repr

/-- `model_info[crop]` (src/multi_crop_app.py lines 620–624): dictionary
lookup that yields the profile of a registered crop and raises
`KeyError(crop)` otherwise. -/
def resolve (crop : String) : Except RegistryError CropProfile :=
  match model_info.find? (fun p => p.crop_id = crop) with
  | some p => .ok p
  | none => .error (.keyError crop)

/-! ## Remedy resolver (src/multi_crop_app.py lines 655–718) -/

/-- Outcome of the static-remedy section: either the remedy record keyed by
the predicted label is rendered, or the explicit "No specific static remedy
information available for this prediction." warning (the no-remedy
sentinel) is shown.  The source reaches these through
`if prediction in static_remedies: ... else: st.warning(...)`; there is no
raising path. -/
inductive RemedyDisplay where
  | remedy (label : String)
  | noRemedyNotice
  deriving DecidableEq, Repr

/-- The remedy lookup of the multi-crop app: membership test on the crop's
`remedies` table followed by either the record display or the sentinel
warning. -/
def resolve_remedy (p : CropProfile) (label : String) : RemedyDisplay :=
  if label ∈ p.remedyLabels then .remedy label else .noRemedyNotice

/-! ## Architecture builder (`load_and_configure_model`, lines 590–618) -/

/-- Layers that can occur in the replaced `model.fc` head. -/
inductive Layer where
  | linear (inFeatures outFeatures : Nat)
  | relu
  | dropout (p : ℚ)
  deriving DecidableEq, Repr

/-- `model.fc.in_features` of `torchvision.models.resnet50`: the feature
width of the shared backbone. -/
def resnet50FcInFeatures : Nat := 2048

/-- The head-construction branch of `load_and_configure_model`: the layer
sequence assigned to `model.fc` for each recognised `fc_layer_type`, and
the `ValueError` raised for any other tag (no default head is built). -/
def buildFcLayers (numFtrs numClasses : Nat) (fcType : String) :
    Except String (List Layer) :=
  if fcType = "single_linear" then
    .ok [.linear numFtrs numClasses]
  else if fcType = "custom_sequential_peanut" then
    .ok [.linear numFtrs 512, .relu, .dropout 0.3, .linear 512 numClasses]
  else if fcType = "custom_sequential_new_crop" then
    .ok [.linear numFtrs 256, .relu, .dropout 0.4, .linear 256 numClasses]
  else
    .error ("Unknown FC layer type: " ++ fcType)

/-- The parameters of one `nn.Linear` layer as loaded from a weights file:
a weight matrix (list of output rows) and a bias vector. -/
structure LinearParams where
  weight : List (List ℚ)
  bias : List ℚ
  deriving DecidableEq, Repr

/-- Shape check performed by `load_state_dict` on one linear layer. -/
def LinearParams.hasShape (p : LinearParams) (inF outF : Nat) : Bool :=
  p.weight.length = outF && p.weight.all (fun r => r.length = inF) &&
    p.bias.length = outF

/-- Shape check performed by `load_state_dict` on the whole head: the
serialized linear parameters must align one-to-one with the linear layers
of the constructed head (parameter-free `ReLU`/`Dropout` layers consume
nothing). -/
def sdMatches : List Layer → List LinearParams → Bool
  | [], [] => true
  | .linear i o :: ls, p :: ps => p.hasShape i o && sdMatches ls ps
  | .relu :: ls, ps => sdMatches ls ps
  | .dropout _ :: ls, ps => sdMatches ls ps
  | _, _ => false

/-- Dot product of two rational vectors. -/
def dot (u v : List ℚ) : ℚ := (List.zipWith (· * ·) u v).sum

/-- Forward pass of one `nn.Linear` layer: each output coordinate is the
dot product of the corresponding weight row with the input, plus the bias. -/
def linearForward (p : LinearParams) (x : List ℚ) : List ℚ :=
  List.zipWith (fun row b => dot row x + b) p.weight p.bias

/-- Forward pass of the head in evaluation mode (`model.eval()` is called
right after loading): `ReLU` clamps at zero pointwise and `Dropout` is the
identity (stochastic regularization is inert at inference time).  Returns
`none` when the parameter list does not align with the layers, which the
`sdMatches` check of `load_state_dict` rules out. -/
def layersForward : List Layer → List LinearParams → List ℚ → Option (List ℚ)
  | [], [], x => some x
  | .linear _ _ :: ls, p :: ps, x => layersForward ls ps (linearForward p x)
  | .relu :: ls, ps, x => layersForward ls ps (x.map (fun v => max 0 v))
  | .dropout _ :: ls, ps, x => layersForward ls ps x
  | _, _, _ => none

/-- A built model ready for inference: the constructed `model.fc` layer
sequence and the head parameters loaded into it.  (The backbone's own
parameters are also overwritten from the weights file; the backbone is
abstracted as a function argument at the point of inference.) -/
structure LoadedModel where
  fcLayers : List Layer
  sd : List LinearParams
  deriving DecidableEq, Repr

/-- `load_and_configure_model` minus the `st.cache_resource` memoization
(modelled separately as `load_and_configure_model_cached`): build the head
for the given tag, then `load_state_dict`, which raises a size-mismatch
`RuntimeError` when the serialized shapes do not match the constructed
head. -/
def buildLoadedModel (numFtrs numClasses : Nat) (fcType : String)
    (sd : List LinearParams) : Except String LoadedModel :=
  match buildFcLayers numFtrs numClasses fcType with
  | .error e => .error e
  | .ok ls =>
    if sdMatches ls sd then .ok ⟨ls, sd⟩
    else .error "load_state_dict: size mismatch"

/-! ## Arg-max inference (`torch.max` / `torch.argmax`) -/

/-- `torch.max(outputs, 1)` on a single output row: the maximum value and
the index of its first occurrence (`none` on an empty row, where torch
raises).  Strict comparison `m > x` keeps the earlier index on ties, so the
returned index is the first occurrence of the maximum. -/
def torchMax : List ℚ → Option (ℚ × Nat)
  | [] => none
  | x :: xs =>
    match torchMax xs with
    | none => some (x, 0)
    | some (m, k) => if m > x then some (m, k + 1) else some (x, 0)

/-- `torch.argmax(output, 1)` on a single output row: the index of the
first maximal value. -/
def torchArgmax (l : List ℚ) : Option Nat := (torchMax l).map (fun r => r.2)

/-- Lines 648–649 of src/multi_crop_app.py in isolation:
`predicted_idx = torch.argmax(output, 1).item()` followed by
`prediction = labels[predicted_idx]` (list indexing that raises
`IndexError`, hence `none`, when out of range). -/
def predictedLabel (labels : List String) (out : List ℚ) : Option String :=
  (torchArgmax out).bind (fun idx => labels.get? idx)

theorem torchMax_isSome {l : List ℚ} (h : l ≠ []) : (torchMax l).isSome := by
  cases l with
  | nil => exact absurd rfl h
  | cons x xs =>
    simp only [torchMax]
    cases torchMax xs with
    | none => rfl
    | some r =>
      obtain ⟨m, k⟩ := r
      by_cases hc : m > x <;> simp [hc]

/-- The returned index addresses the returned value. -/
theorem torchMax_get {l : List ℚ} {m : ℚ} {k : Nat}
    (h : torchMax l = some (m, k)) : l.get? k = some m := by
  induction l generalizing m k with
  | nil => simp [torchMax] at h
  | cons x xs ih =>
    simp only [torchMax] at h
    cases hxs : torchMax xs with
    | none =>
      rw [hxs] at h
      cases h
      rfl
    | some r =>
      obtain ⟨m0, k0⟩ := r
      rw [hxs] at h
      by_cases hc : m0 > x
      · simp only [if_pos hc] at h
        cases h
        simpa using ih hxs
      · simp only [if_neg hc] at h
        cases h
        rfl

/-- The returned value bounds every entry of the row. -/
theorem torchMax_le {l : List ℚ} {m : ℚ} {k : Nat}
    (h : torchMax l = some (m, k)) :
    ∀ i v, l.get? i = some v → v ≤ m := by
  induction l generalizing m k with
  | nil => simp [torchMax] at h
  | cons x xs ih =>
    simp only [torchMax] at h
    intro i v hv
    cases hxs : torchMax xs with
    | none =>
      rw [hxs] at h
      cases h
      cases i with
      | zero =>
        simp only [List.get?] at hv
        cases hv
        exact le_refl _
      | succ n =>
        cases xs with
        | nil => simp at hv
        | cons y ys =>
          have hs := torchMax_isSome (l := y :: ys) (by simp)
          rw [hxs] at hs
          simp at hs
    | some r =>
      obtain ⟨m0, k0⟩ := r
      rw [hxs] at h
      by_cases hc : m0 > x
      · simp only [if_pos hc] at h
        cases h
        cases i with
        | zero =>
          simp only [List.get?] at hv
          cases hv
          exact le_of_lt hc
        | succ n =>
          simp only [List.get?] at hv
          exact ih hxs n v hv
      · simp only [if_neg hc] at h
        cases h
        cases i with
        | zero =>
          simp only [List.get?] at hv
          cases hv
          exact le_refl _
        | succ n =>
          simp only [List.get?] at hv
          exact le_trans (ih hxs n v hv) (le_of_not_lt hc)

/-- First-occurrence tie-break: every entry strictly before the returned
index is strictly below the maximum. -/
theorem torchMax_first {l : List ℚ} {m : ℚ} {k : Nat}
    (h : torchMax l = some (m, k)) :
    ∀ i v, i < k → l.get? i = some v → v < m := by
  induction l generalizing m k with
  | nil => simp [torchMax] at h
  | cons x xs ih =>
    simp only [torchMax] at h
    intro i v hik hv
    cases hxs : torchMax xs with
    | none =>
      rw [hxs] at h
      cases h
      omega
    | some r =>
      obtain ⟨m0, k0⟩ := r
      rw [hxs] at h
      by_cases hc : m0 > x
      · simp only [if_pos hc] at h
        cases h
        cases i with
        | zero =>
          simp only [List.get?] at hv
          cases hv
          exact hc
        | succ n =>
          simp only [List.get?] at hv
          exact ih hxs n v (by omega) hv
      · simp only [if_neg hc] at h
        cases h
        omega

/-- The index returned by `torchMax` is in range. -/
theorem torchMax_lt_length {l : List ℚ} {m : ℚ} {k : Nat}
    (h : torchMax l = some (m, k)) : k < l.length :=
  (List.get?_eq_some.mp (torchMax_get h)).1

/-! ## Preprocessing pipeline (`transform`, src/multi_crop_app.py lines
628–633 and src/unnamed/part_000 lines 45–50) -/

/-- An RGB image as produced by `Image.open(...).convert("RGB")`: a pixel
grid of 8-bit channel values, addressed as `px x y c`. -/
structure RGBImage where
  width : Nat
  height : Nat
  px : Nat → Nat → Fin 3 → Fin 256

/-- Clamp an integer coordinate into `[0, n-1]`. -/
def clampIdx (i : ℤ) (n : Nat) : Nat := (max 0 (min i ((n : ℤ) - 1))).toNat

/-- The source coordinate sampled for destination index `dst` when resizing
a length-`srcLen` axis to length `dstLen` (pixel-centre convention). -/
def srcCoord (dst srcLen dstLen : Nat) : ℚ :=
  ((dst : ℚ) + 1 / 2) * srcLen / dstLen - 1 / 2

/-- Bilinear sample of one channel at fractional source coordinates, with
edge clamping. -/
def bilinearSample (img : RGBImage) (c : Fin 3) (fx fy : ℚ) : ℚ :=
  let x0 : ℤ := ⌊fx⌋
  let y0 : ℤ := ⌊fy⌋
  let dx : ℚ := fx - x0
  let dy : ℚ := fy - y0
  let p : ℤ → ℤ → ℚ := fun xi yi =>
    ((img.px (clampIdx xi img.width) (clampIdx yi img.height) c : Nat) : ℚ)
  (1 - dx) * (1 - dy) * p x0 y0 + dx * (1 - dy) * p (x0 + 1) y0 +
    (1 - dx) * dy * p x0 (y0 + 1) + dx * dy * p (x0 + 1) (y0 + 1)

/-- `transforms.Resize((224, 224))` with the default `BILINEAR`
interpolation, non-aspect-preserving.  An image that is already 224×224 is
returned unchanged (PIL's exact-size shortcut).  For other sizes the
library's resampling kernel is external to this repository; it is modelled
by bilinear sampling with rounding, clipped to the 8-bit range exactly as
PIL clips resampled channel values. -/
def resize224 (img : RGBImage) (c : Fin 3) (y x : Fin 224) : Fin 256 :=
  if img.width = 224 ∧ img.height = 224 then img.px x y c
  else
    ⟨min 255 (round (bilinearSample img c
        (srcCoord x img.width 224) (srcCoord y img.height 224))).toNat,
      Nat.lt_succ_of_le (Nat.min_le_left _ _)⟩

/-- A single preprocessed image in CHW layout. -/
abbrev CHWTensor := Fin 3 → Fin 224 → Fin 224 → ℚ

/-- A batch of one preprocessed image (`unsqueeze(0)`). -/
abbrev BatchedTensor := Fin 1 → CHWTensor

/-- `transforms.ToTensor()` after the resize: 8-bit channel values scaled
into `[0, 1]` by division by 255, in CHW layout. -/
def toTensor (r : Fin 3 → Fin 224 → Fin 224 → Fin 256) : CHWTensor :=
  fun c y x => ((r c y x : Nat) : ℚ) / 255

/-- `transforms.Normalize(mean, std)`: per-channel affine normalization. -/
def normalize (mean std : Fin 3 → ℚ) (t : CHWTensor) : CHWTensor :=
  fun c y x => (t c y x - mean c) / std c

/-- Normalization mean of the multi-crop app (line 631). -/
def multiMean : Fin 3 → ℚ := ![0.485, 0.456, 0.406]

/-- Normalization standard deviation of the multi-crop app (line 632). -/
def multiStd : Fin 3 → ℚ := ![0.229, 0.224, 0.225]

/-- The `transform` pipeline of the multi-crop app: resize, to-tensor,
normalize. -/
def multiTransform (img : RGBImage) : CHWTensor :=
  normalize multiMean multiStd (toTensor (resize224 img))

/-- `transform(image).unsqueeze(0)`: the batched input of the multi-crop
app. -/
def multiInputTensor (img : RGBImage) : BatchedTensor :=
  fun _ => multiTransform img

/-- Normalization mean of the single-crop grape app (part_000 line 48). -/
def singleMean : Fin 3 → ℚ := ![0.485, 0.456, 0.406]

/-- Normalization standard deviation of the single-crop grape app
(part_000 line 49). -/
def singleStd : Fin 3 → ℚ := ![0.229, 0.224, 0.225]

/-- The `transform` pipeline of the single-crop grape app. -/
def singleTransform (img : RGBImage) : CHWTensor :=
  normalize singleMean singleStd (toTensor (resize224 img))

/-- `transform(image).unsqueeze(0)` in the single-crop grape app. -/
def singleInputTensor (img : RGBImage) : BatchedTensor :=
  fun _ => singleTransform img

/-! ## End-to-end prediction -/

/-- The backbone of the loaded model, abstracted: `resnet50`'s feature
extractor (with whatever parameters the weights file put into it) as an
arbitrary function from the batched input tensor to the feature vector
consumed by `model.fc`. -/
abbrev Backbone := BatchedTensor → List ℚ

/-- The prediction path of the multi-crop app for a selected crop (lines
620–649): resolve the crop in `model_info`, build and load the model,
preprocess the image, run the forward pass without gradient tracking, take
the arg-max, and index the crop's label list with the winning index.  Every
raising operation of the source is an `Except.error` here. -/
def multiAppPredict (crop : String) (backbone : Backbone)
    (sd : List LinearParams) (img : RGBImage) : Except String String :=
  match resolve crop with
  | .error (.keyError k) => .error ("KeyError: " ++ k)
  | .ok p =>
    match buildLoadedModel resnet50FcInFeatures p.num_classes p.fc_type sd with
    | .error e => .error e
    | .ok m =>
      match layersForward m.fcLayers m.sd (backbone (multiInputTensor img)) with
      | none => .error "load_state_dict: size mismatch"
      | some out =>
        match torchArgmax out with
        | none => .error "argmax of an empty tensor"
        | some i =>
          match p.labels.get? i with
          | none => .error "IndexError: list index out of range"
          | some l => .ok l

/-! ## Single-crop grape app (src/unnamed/part_000) -/

/-- `NUM_CLASSES` of part_000 (line 26). -/
def NUM_CLASSES : Nat := 4

/-- `class_names` of part_000 (line 27). -/
def class_names : List String := ["Black Rot", "ESCA", "Healthy", "Leaf Blight"]

/-- `load_model` of part_000 (lines 29–37) minus the memoization:
`resnet50(weights=None)` with `model.fc = nn.Linear(num_ftrs, NUM_CLASSES)`
and `load_state_dict` of `resnet50_grapes.pt`. -/
def singleLoadModel (sd : List LinearParams) : Except String LoadedModel :=
  if sdMatches [.linear resnet50FcInFeatures NUM_CLASSES] sd then
    .ok ⟨[.linear resnet50FcInFeatures NUM_CLASSES], sd⟩
  else .error "load_state_dict: size mismatch"

/-- The prediction path of part_000 (lines 61–74): preprocess, forward pass
under `torch.no_grad()`, `torch.max(outputs, 1)` for the winning index,
then `class_names[predicted.item()]`. -/
def singleAppPredict (backbone : Backbone) (sd : List LinearParams)
    (img : RGBImage) : Except String String :=
  match singleLoadModel sd with
  | .error e => .error e
  | .ok m =>
    match layersForward m.fcLayers m.sd (backbone (singleInputTensor img)) with
    | none => .error "load_state_dict: size mismatch"
    | some out =>
      match torchMax out with
      | none => .error "argmax of an empty tensor"
      | some r =>
        match class_names.get? r.2 with
        | none => .error "IndexError: list index out of range"
        | some l => .ok l

/-- `disease_info` of part_000 (lines 82–107): the static advice table of
the single-crop grape app, keyed by predicted label, each record holding
cause, remedy, fertilizer and tips strings. -/
structure GrapeAdvice where
  cause : String
  remedy : String
  fertilizer : String
  tips : String
  deriving DecidableEq, Repr

/-- The four records of `disease_info`, in source order. -/
def disease_info : List (String × GrapeAdvice) :=
  [("Black Rot",
    { cause := "Black Rot is caused by the fungus *Guignardia bidwellii*. It spreads in warm, humid conditions."
      remedy := "Prune infected leaves, apply fungicides like mancozeb. Maintain vineyard hygiene."
      fertilizer := "Balanced NPK, avoid excess nitrogen."
      tips := "Ensure good air flow, monitor during warm wet seasons." }),
   ("ESCA",
    { cause := "ESCA is caused by multiple wood-rotting fungi. Leads to leaf striping and dieback."
      remedy := "Remove infected wood, disinfect pruning tools."
      fertilizer := "Keep soil nutrients balanced."
      tips := "Avoid pruning wounds, apply protectants if possible." }),
   ("Healthy",
    { cause := "No visible disease detected."
      remedy := "Continue good care practices."
      fertilizer := "Balanced feeding per soil tests."
      tips := "Monitor regularly for early signs." }),
   ("Leaf Blight",
    { cause := "Leaf Blight is often due to fungi like *Pseudocercospora vitis*."
      remedy := "Remove infected leaves, use copper or chlorothalonil sprays."
      fertilizer := "Maintain soil health, avoid excess nitrogen."
      tips := "Prune for good air flow, manage humidity." })]

/-- `disease_info[predicted_label]` (part_000 line 109): direct dictionary
indexing, which raises `KeyError` (`none` here) when the label has no
entry. -/
def singleLookupAdvice (label : String) : Option GrapeAdvice :=
  (disease_info.find? (fun e => e.1 = label)).map (fun e => e.2)

/-! ## The `st.cache_resource` memoization of `load_and_configure_model`
(src/multi_crop_app.py line 590; part_000 line 29) -/

/-- The process-wide `st.cache_resource` cache: entries key the argument
tuple `(path, num_classes_for_model, fc_layer_type)` to the identity of the
constructed model instance, and `loads` counts how many times the weights
file has been read and a model constructed.  Instance identities are the
load counter at construction time, so two results are references to the
same underlying instance exactly when their identities are equal. -/
structure ResourceCache where
  entries : List ((String × Nat × String) × Nat)
  loads : Nat
  deriving DecidableEq, Repr

/-- Cache lookup on the argument tuple. -/
def cacheLookup (k : String × Nat × String) (c : ResourceCache) : Option Nat :=
  (c.entries.find? (fun e => e.1 = k)).map (fun e => e.2)

/-- `load_and_configure_model` as called through `st.cache_resource`: a hit
returns the cached instance unchanged; a miss builds the head, reads the
weights file once (incrementing `loads`) and stores the fresh instance
under the argument tuple.  A `ValueError` from an unrecognised
`fc_layer_type` (`none` here) is not cached. -/
def load_and_configure_model_cached (path : String) (numClasses : Nat)
    (fcType : String) (c : ResourceCache) : Option Nat × ResourceCache :=
  match cacheLookup (path, numClasses, fcType) c with
  | some id => (some id, c)
  | none =>
    match buildFcLayers resnet50FcInFeatures numClasses fcType with
    | .error _ => (none, c)
    | .ok _ =>
      (some c.loads,
       { entries := ((path, numClasses, fcType), c.loads) :: c.entries,
         loads := c.loads + 1 })

/-! ## AI-advice path and page-level error containment -/

/-- The user-visible output elements the two scripts emit, carrying the
payload that varies (static page chrome is presentation, out of scope). -/
inductive RenderItem where
  | success (msg : String)
  | markdown (msg : String)
  | warning (msg : String)
  | info (msg : String)
  | errorBox (msg : String)
  deriving DecidableEq, Repr

/-- One run of a script page: the prediction-and-static-remedy output, the
AI-advice output, and the exception escaping the run, if any. -/
structure PageRun where
  main : List RenderItem
  advice : List RenderItem
  raised : Option String
  deriving DecidableEq, Repr

/-- Sourcing of `GEMINI_API_KEY` (src/multi_crop_app.py lines 725–732):
`os.getenv` first; when that yields nothing (or the empty string, which is
falsy), `st.secrets`, whose `KeyError` is caught and turned into `None`
plus a warning. -/
def geminiApiKey (env secrets : String → Option String) : Option String :=
  match env "GEMINI_API_KEY" with
  | some k => if k = "" then secrets "GEMINI_API_KEY" else some k
  | none => secrets "GEMINI_API_KEY"

/-- Python truthiness of the key value at line 818 (`if GEMINI_API_KEY:`). -/
def keyTruthy : Option String → Bool
  | none => false
  | some s => !(s = "")

/-- Outcome of a `chat.send_message` call to the Gemini service: either a
reply text, or any exception (network failure, non-success response raised
by the client library, quota error, ...). -/
inductive GeminiOutcome where
  | reply (text : String)
  | exceptionMsg (msg : String)
  deriving DecidableEq, Repr

/-- The sidebar AI-advice section of the multi-crop app (lines 818–894):
without a truthy key only an info notice appears; with a key but no
prediction or with the toggle off, an info notice; otherwise the Gemini
call runs inside `try/except Exception`, so an exception is rendered as an
error box plus a fallback message and never escapes. -/
def multiSidebar (key : Option String) (prediction : Option String)
    (toggle : Bool) (outcome : GeminiOutcome) : List RenderItem :=
  if keyTruthy key then
    match prediction with
    | none => [.info "Upload an image and get a prediction first to enable AI advice in the sidebar."]
    | some _ =>
      if toggle then
        match outcome with
        | .reply t => [.info t]
        | .exceptionMsg e =>
          [.errorBox ("An error occurred with Google Gemini: " ++ e),
           .info "Sorry, I couldn't generate a response at this time."]
      else [.info "Toggle 'Get AI-generated advice' to enable AI features."]
  else
    [.info "Please set your Google Gemini API key as an environment variable (GEMINI_API_KEY) or in Streamlit secrets."]

/-- The prediction-and-static-remedy output of the multi-crop app (lines
651–718): the success banner with the predicted label, then either the
remedy record display or the no-remedy warning. -/
def multiMainRender (p : CropProfile) (label : String) : List RenderItem :=
  RenderItem.success label ::
    match resolve_remedy p label with
    | .remedy l => [.markdown l]
    | .noRemedyNotice => [.warning "No specific static remedy information available for this prediction."]

/-- One run of the multi-crop page after an image upload: prediction and
static remedy first (lines 640–718), then the sidebar AI section (lines
722–894).  A failure of the prediction path itself escapes; the AI section
contributes no escaping exception.  (The final catch-all case is
unreachable: a successful prediction entails a successful resolve.) -/
def multiAppPage (crop : String) (backbone : Backbone) (sd : List LinearParams)
    (img : RGBImage) (env secrets : String → Option String) (toggle : Bool)
    (outcome : GeminiOutcome) : PageRun :=
  match multiAppPredict crop backbone sd img, resolve crop with
  | .error e, _ => ⟨[], [], some e⟩
  | .ok label, .ok p =>
    ⟨multiMainRender p label,
     multiSidebar (geminiApiKey env secrets) (some label) toggle outcome,
     none⟩
  | .ok _, .error _ => ⟨[], [], none⟩

/-- `OPENROUTER_API_KEY` of part_000 (line 123): a hardcoded source
literal, not read from the environment or a secret store. -/
def OPENROUTER_API_KEY : String :=
  "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"

/-- Python `str.startswith`, as the prefix test on the underlying character
sequence. -/
def pyStartsWith (s pre : String) : Bool := pre.data.isPrefixOf s.data

/-- Result of `requests.post` to the advice endpoint: a response with some
status code and body, or a raised transport-level exception
(`ConnectionError`, timeout, ...). -/
inductive HttpResult where
  | response (status : Nat) (body : String)
  | netError (msg : String)
  deriving DecidableEq, Repr

/-- The AI-advice section of part_000 (lines 121–154): the call runs only
when the key starts with "sk-"; a 200 response renders the completion, a
non-200 response renders a warning, and a transport-level exception is not
caught anywhere, so it escapes the script run. -/
def singleAdviceSection (r : HttpResult) : List RenderItem × Option String :=
  if pyStartsWith OPENROUTER_API_KEY "sk-" then
    match r with
    | .response status body =>
      if status = 200 then ([.markdown body], none)
      else ([.warning "DeepSeek API call failed."], none)
    | .netError m => ([], some m)
  else
    ([.info "Add your OPENROUTER_API_KEY in the code to get AI-powered response."], none)

/-- One run of the single-crop grape page after an upload (lines 61–154):
prediction, static advice from `disease_info` (direct indexing, whose
`KeyError` would escape), then the advice call.  Elements rendered before
an escaping exception stay on the page. -/
def singleAppPage (backbone : Backbone) (sd : List LinearParams)
    (img : RGBImage) (r : HttpResult) : PageRun :=
  match singleAppPredict backbone sd img with
  | .error e => ⟨[], [], some e⟩
  | .ok label =>
    match singleLookupAdvice label with
    | none => ⟨[.success label], [], some ("KeyError: " ++ label)⟩
    | some info =>
      let adv := singleAdviceSection r
      ⟨[.success label, .markdown info.cause, .markdown info.remedy,
        .markdown info.fertilizer, .markdown info.tips],
       adv.1, adv.2⟩

/-! ## Helper lemmas -/

/-- Every row of the hardcoded registry has `num_classes` equal to the
length of its label list, and positive. -/
theorem mem_model_info_facts :
    ∀ p ∈ model_info, p.num_classes = p.labels.length ∧ 0 < p.num_classes := by
  decide

/-- Inversion of a successful `buildLoadedModel`. -/
theorem buildLoadedModel_ok {nf nc : Nat} {fc : String}
    {sd : List LinearParams} {m : LoadedModel}
    (h : buildLoadedModel nf nc fc sd = .ok m) :
    buildFcLayers nf nc fc = .ok m.fcLayers ∧ sdMatches m.fcLayers sd = true ∧
      m.sd = sd := by
  unfold buildLoadedModel at h
  cases hb : buildFcLayers nf nc fc with
  | error e => rw [hb] at h; cases h
  | ok ls =>
    rw [hb] at h
    dsimp only at h
    by_cases hm : sdMatches ls sd = true
    · rw [if_pos hm] at h
      cases h
      exact ⟨rfl, hm, rfl⟩
    · rw [if_neg hm] at h
      cases h

/-- A head built for a recognised tag, loaded with shape-matching
parameters, maps any feature vector to an output row of exactly
`num_classes` scores. -/
theorem layersForward_ok_length {nf nc : Nat} {fc : String} {ls : List Layer}
    {sd : List LinearParams}
    (hb : buildFcLayers nf nc fc = .ok ls) (hm : sdMatches ls sd = true)
    (x : List ℚ) :
    ∃ out, layersForward ls sd x = some out ∧ out.length = nc := by
  unfold buildFcLayers at hb
  split_ifs at hb <;> injection hb with hb <;> subst hb
  · -- single_linear
    cases sd with
    | nil => simp [sdMatches] at hm
    | cons p ps =>
      cases ps with
      | cons q qs => simp [sdMatches] at hm
      | nil =>
        simp only [sdMatches, LinearParams.hasShape, Bool.and_eq_true,
          decide_eq_true_eq] at hm
        refine ⟨linearForward p x, rfl, ?_⟩
        simp [linearForward, List.length_zipWith, hm.1.1.1, hm.1.2]
  · -- custom_sequential_peanut
    cases sd with
    | nil => simp [sdMatches] at hm
    | cons p1 ps =>
      cases ps with
      | nil => simp [sdMatches] at hm
      | cons p2 qs =>
        cases qs with
        | cons r rs => simp [sdMatches] at hm
        | nil =>
          simp only [sdMatches, LinearParams.hasShape, Bool.and_eq_true,
            decide_eq_true_eq] at hm
          refine ⟨linearForward p2 ((linearForward p1 x).map (fun v => max 0 v)),
            rfl, ?_⟩
          simp [linearForward, List.length_zipWith, hm.2.1.1.1, hm.2.1.2]
  · -- custom_sequential_new_crop
    cases sd with
    | nil => simp [sdMatches] at hm
    | cons p1 ps =>
      cases ps with
      | nil => simp [sdMatches] at hm
      | cons p2 qs =>
        cases qs with
        | cons r rs => simp [sdMatches] at hm
        | nil =>
          simp only [sdMatches, LinearParams.hasShape, Bool.and_eq_true,
            decide_eq_true_eq] at hm
          refine ⟨linearForward p2 ((linearForward p1 x).map (fun v => max 0 v)),
            rfl, ?_⟩
          simp [linearForward, List.length_zipWith, hm.2.1.1.1, hm.2.1.2]

/-- An all-zero linear-layer parameter block of the given shape, used as a
concrete weight assignment in witnesses. -/
def zeroLinear (outF inF : Nat) : LinearParams :=
  ⟨List.replicate outF (List.replicate inF 0), List.replicate outF 0⟩

/-- The all-zero block passes the `load_state_dict` shape check of a
single-linear head. -/
theorem sdMatches_single_zero (nf nc : Nat) :
    sdMatches [Layer.linear nf nc] [zeroLinear nc nf] = true := by
  simp only [zeroLinear, sdMatches, LinearParams.hasShape, List.length_replicate,
    Bool.and_eq_true, decide_eq_true_eq, List.all_eq_true, List.mem_replicate]
  refine ⟨⟨⟨trivial, ?_⟩, trivial⟩, trivial⟩
  intro x hx
  rw [hx.2]
  exact List.length_replicate nf 0

/-- A 224×224 mid-gray test image. -/
def grayImage : RGBImage := ⟨224, 224, fun _ _ _ => ⟨128, by omega⟩⟩

/-! ## Claims -/

/-- **C1** — For every registered crop_id, running `resolve`, then `build`
(with head parameters that pass the `load_state_dict` shape check), then
`predict` on a valid 224×224 RGB image returns a label that is a member of
that crop's label list: the arg-max index over the `num_classes`-dimensional
output row is always a valid index into `labels`, for every backbone
function and every loaded head weight assignment. -/
theorem resolve_build_predict_closure
    (crop : String) (p : CropProfile) (m : LoadedModel)
    (backbone : Backbone) (sd : List LinearParams) (img : RGBImage)
    (hres : resolve crop = .ok p)
    (hbuild : buildLoadedModel resnet50FcInFeatures p.num_classes p.fc_type sd
      = .ok m)
    (h224 : img.width = 224 ∧ img.height = 224) :
    ∃ l, multiAppPredict crop backbone sd img = .ok l ∧ l ∈ p.labels := by
  obtain ⟨hb, hm, hsd⟩ := buildLoadedModel_ok hbuild
  obtain ⟨out, hout, hlen⟩ :=
    layersForward_ok_length hb hm (backbone (multiInputTensor img))
  have hpmem : p ∈ model_info := by
    unfold resolve at hres
    cases hf : model_info.find? (fun q => q.crop_id = crop) with
    | none => rw [hf] at hres; cases hres
    | some q => rw [hf] at hres; cases hres; exact List.mem_of_find?_eq_some hf
  obtain ⟨hncl, hpos⟩ := mem_model_info_facts p hpmem
  have hne : out ≠ [] := by
    intro hnil
    rw [hnil] at hlen
    simp at hlen
    omega
  obtain ⟨⟨mv, k⟩, htm⟩ := Option.isSome_iff_exists.mp (torchMax_isSome hne)
  have hk : k < p.labels.length := by
    have := torchMax_lt_length htm
    omega
  obtain ⟨l, hl⟩ : ∃ l, p.labels.get? k = some l :=
    ⟨p.labels.get ⟨k, hk⟩, List.get?_eq_get hk⟩
  refine ⟨l, ?_, List.get?_mem hl⟩
  have hl2 : p.labels[k]? = some l := by
    rw [← List.get?_eq_getElem?]
    exact hl
  simp [multiAppPredict, hres, hbuild, hsd, hout, torchArgmax, htm, hl2]

/-- **C1 witness**: the Potato crop with an all-zero 3×2048 single-linear
head and an all-zero backbone on an all-gray 224×224 image yields a label
from the Potato label list. -/
theorem resolve_build_predict_closure_witness :
    ∃ l, multiAppPredict "Potato" (fun _ => []) [zeroLinear 3 2048] grayImage
        = .ok l ∧ l ∈ potatoProfile.labels := by
  have hbuild : buildLoadedModel resnet50FcInFeatures potatoProfile.num_classes
      potatoProfile.fc_type [zeroLinear 3 2048] =
      .ok ⟨[Layer.linear 2048 3], [zeroLinear 3 2048]⟩ := by
    simp only [buildLoadedModel]
    rw [show buildFcLayers resnet50FcInFeatures potatoProfile.num_classes
        potatoProfile.fc_type = .ok [Layer.linear 2048 3] from rfl]
    dsimp only
    rw [if_pos (sdMatches_single_zero 2048 3)]
  exact resolve_build_predict_closure "Potato" potatoProfile
    ⟨[Layer.linear 2048 3], [zeroLinear 3 2048]⟩ (fun _ => [])
    [zeroLinear 3 2048] grayImage rfl hbuild ⟨rfl, rfl⟩

/-- **C2** — `load_and_configure_model` constructs the classifier head
exactly by the `fc_layer_type` tag: `single_linear` yields one dense layer
from the backbone feature width to `num_classes`; `custom_sequential_peanut`
yields dense(width→512), ReLU, Dropout(0.3), dense(512→num_classes);
`custom_sequential_new_crop` yields dense(width→256), ReLU, Dropout(0.4),
dense(256→num_classes); and any unrecognised tag raises a `ValueError`
instead of building a default head. -/
theorem head_construction_by_tag (numFtrs numClasses : Nat) :
    buildFcLayers numFtrs numClasses "single_linear" =
      .ok [.linear numFtrs numClasses] ∧
    buildFcLayers numFtrs numClasses "custom_sequential_peanut" =
      .ok [.linear numFtrs 512, .relu, .dropout 0.3,
           .linear 512 numClasses] ∧
    buildFcLayers numFtrs numClasses "custom_sequential_new_crop" =
      .ok [.linear numFtrs 256, .relu, .dropout 0.4,
           .linear 256 numClasses] ∧
    ∀ t, t ≠ "single_linear" → t ≠ "custom_sequential_peanut" →
      t ≠ "custom_sequential_new_crop" →
      buildFcLayers numFtrs numClasses t =
        .error ("Unknown FC layer type: " ++ t) := by
  refine ⟨rfl, rfl, rfl, fun t h1 h2 h3 => ?_⟩
  unfold buildFcLayers
  rw [if_neg h1, if_neg h2, if_neg h3]

/-- **C2 witness**: the recognised and the error branch at concrete
arguments. -/
theorem head_construction_by_tag_witness :
    buildFcLayers 2048 4 "single_linear" = .ok [.linear 2048 4] ∧
    buildFcLayers 2048 4 "bogus_head" =
      .error ("Unknown FC layer type: " ++ "bogus_head") :=
  ⟨(head_construction_by_tag 2048 4).1,
   (head_construction_by_tag 2048 4).2.2.2 "bogus_head"
     (by decide) (by decide) (by decide)⟩

/-- **C3** — The hardcoded registry has exactly the six crops, and every
row satisfies the invariant: `num_classes` equals the length of the label
list, and the head tag is one of the three recognised values. -/
theorem model_registry_invariant :
    model_info.map (fun p => p.crop_id) =
      ["Grapes", "Potato", "Peanut", "Tomato", "Rice", "Cashew"] ∧
    ∀ p ∈ model_info,
      p.num_classes = p.labels.length ∧
      (p.fc_type = "single_linear" ∨ p.fc_type = "custom_sequential_peanut" ∨
        p.fc_type = "custom_sequential_new_crop") := by
  decide

/-- **C3 witness**: the invariant at the Grapes row. -/
theorem model_registry_invariant_witness :
    grapesProfile.num_classes = grapesProfile.labels.length ∧
    (grapesProfile.fc_type = "single_linear" ∨
      grapesProfile.fc_type = "custom_sequential_peanut" ∨
      grapesProfile.fc_type = "custom_sequential_new_crop") :=
  model_registry_invariant.2 grapesProfile (by decide)

/-- **C4** — Arg-max ties resolve to the lowest index: if the output row
attains its maximum exactly at indices `i < j` (every other entry is
strictly smaller), the predicted index is `i` and the prediction maps it
into the label list at `i` (first occurrence). -/
theorem argmax_tie_lowest_index
    (labels : List String) (out : List ℚ) (i j : Nat) (a : ℚ)
    (hij : i < j)
    (hi : out.get? i = some a) (hj : out.get? j = some a)
    (hothers : ∀ t v, out.get? t = some v → t ≠ i → t ≠ j → v < a) :
    torchArgmax out = some i ∧
    predictedLabel labels out = labels.get? i := by
  have hne : out ≠ [] := by
    intro hnil
    rw [hnil] at hi
    cases hi
  obtain ⟨⟨mv, k⟩, htm⟩ := Option.isSome_iff_exists.mp (torchMax_isSome hne)
  have hkv : out.get? k = some mv := torchMax_get htm
  have hale : a ≤ mv := torchMax_le htm i a hi
  have hki : k = i := by
    by_cases hk1 : k = i
    · exact hk1
    · by_cases hk2 : k = j
      · subst hk2
        rw [hj] at hkv
        cases hkv
        exact absurd (torchMax_first htm i a hij hi) (lt_irrefl a)
      · exact absurd (lt_of_lt_of_le (hothers k mv hkv hk1 hk2) hale)
          (lt_irrefl mv)
  subst hki
  constructor
  · simp [torchArgmax, htm]
  · simp [predictedLabel, torchArgmax, htm]

/-- **C4 witness**: the row `[1, 5, 5, 2]` has its two maxima at indices 1
and 2; the prediction picks index 1, i.e. "ESCA" under the grape labels. -/
theorem argmax_tie_lowest_index_witness :
    torchArgmax [1, 5, 5, 2] = some 1 ∧
    predictedLabel grapesProfile.labels [1, 5, 5, 2] =
      grapesProfile.labels.get? 1 :=
  argmax_tie_lowest_index grapesProfile.labels [1, 5, 5, 2] 1 2 5
    (by decide) (by decide) (by decide)
    (by
      intro t v htv h1 h2
      have ht : t < 4 := by
        have := (List.get?_eq_some.mp htv).1
        simpa using this
      interval_cases t
      · simp at htv
        linarith
      · exact absurd rfl h1
      · exact absurd rfl h2
      · simp at htv
        linarith)

/-- **C5** — The preprocessing transform is one fixed deterministic
pipeline, identical in both apps and independent of the selected crop: the
resized image is 224×224 (by the codomain of `resize224`), `ToTensor`
yields per-channel values in [0, 1], normalization uses exactly the
hardcoded constants mean = [0.485, 0.456, 0.406] and
std = [0.229, 0.224, 0.225], the batched tensor has the single image at
every batch index (batch size 1), and the two apps' transforms are the
same function (determinism is inherent: the pipeline is a pure function of
the image, with no random or stateful step). -/
theorem preprocessing_fixed_pipeline :
    (∀ (img : RGBImage) (c : Fin 3) (y x : Fin 224),
      0 ≤ toTensor (resize224 img) c y x ∧ toTensor (resize224 img) c y x ≤ 1) ∧
    (multiMean 0 = 0.485 ∧ multiMean 1 = 0.456 ∧ multiMean 2 = 0.406 ∧
      multiStd 0 = 0.229 ∧ multiStd 1 = 0.224 ∧ multiStd 2 = 0.225) ∧
    (∀ (img : RGBImage) (c : Fin 3) (y x : Fin 224),
      multiTransform img c y x =
        (toTensor (resize224 img) c y x - multiMean c) / multiStd c) ∧
    (∀ (img : RGBImage) (b : Fin 1), multiInputTensor img b = multiTransform img) ∧
    singleTransform = multiTransform := by
  refine ⟨?_, ⟨rfl, rfl, rfl, rfl, rfl, rfl⟩, fun img c y x => rfl,
    fun img b => rfl, rfl⟩
  intro img c y x
  have hv : ((resize224 img c y x : Nat) : ℚ) ≤ 255 := by
    have h := (resize224 img c y x).isLt
    exact_mod_cast Nat.le_of_lt_succ h
  simp only [toTensor]
  constructor
  · positivity
  · rw [div_le_one (by norm_num)]
    exact hv

/-- **C6** — For every registered crop and every label in its label list,
the static remedy lookup yields the remedy record (in fact every label has
an entry); for any label absent from a crop's remedy table the lookup
yields the no-remedy warning sentinel rather than raising; and in the
single-crop app every class name is a key of `disease_info`, so its direct
dictionary indexing never raises either. -/
theorem remedy_lookup_total :
    (∀ p ∈ model_info, ∀ l ∈ p.labels, resolve_remedy p l = .remedy l) ∧
    (∀ (p : CropProfile) (l : String), l ∉ p.remedyLabels →
      resolve_remedy p l = .noRemedyNotice) ∧
    (∀ l ∈ class_names, (singleLookupAdvice l).isSome = true) := by
  refine ⟨by decide, ?_, by decide⟩
  intro p l h
  simp [resolve_remedy, h]

/-- **C6 witness**: a present label, an absent label, and a single-app
class name. -/
theorem remedy_lookup_total_witness :
    resolve_remedy grapesProfile "ESCA" = .remedy "ESCA" ∧
    resolve_remedy grapesProfile "Leaf Curl" = .noRemedyNotice ∧
    (singleLookupAdvice "Healthy").isSome = true :=
  ⟨remedy_lookup_total.1 grapesProfile (by decide) "ESCA" (by decide),
   remedy_lookup_total.2.1 grapesProfile "Leaf Curl" (by decide),
   remedy_lookup_total.2.2 "Healthy" (by decide)⟩

/-- **C7** — Resolving a crop_id that is not a registered key fails with
the registry's key error carrying the unknown crop (the code's `KeyError`
on `model_info[crop]`, the realisation of the spec's `UnknownCropError`):
resolution never yields a profile for an unregistered crop, and its unique
failure mode identifies the missing key. -/
theorem resolve_unknown_crop (crop : String)
    (h : ∀ p ∈ model_info, p.crop_id ≠ crop) :
    resolve crop = .error (.keyError crop) ∧
    ∀ p, resolve crop ≠ .ok p := by
  have hf : model_info.find? (fun p => p.crop_id = crop) = none := by
    rw [List.find?_eq_none]
    intro p hp
    simp [h p hp]
  constructor
  · simp [resolve, hf]
  · intro p hok
    simp [resolve, hf] at hok

/-- **C7 witness**: the unregistered crop "Banana". -/
theorem resolve_unknown_crop_witness :
    resolve "Banana" = .error (.keyError "Banana") :=
  (resolve_unknown_crop "Banana" (by decide)).1

/-- The hardcoded single-app key does start with "sk-", so the advice call
is reached. -/
theorem pyStartsWith_key : pyStartsWith OPENROUTER_API_KEY "sk-" = true := rfl

/-- The all-zero single-linear head maps the empty feature vector to the
all-zero score row. -/
theorem linearForward_zero_nil (nc nf : Nat) :
    linearForward (zeroLinear nc nf) [] = List.replicate nc 0 := by
  simp only [linearForward, zeroLinear, dot]
  rw [List.zipWith_replicate]
  simp

/-- Concrete single-app prediction used by the C8 counterexample. -/
theorem singlePredict_zero :
    singleAppPredict (fun _ => []) [zeroLinear 4 2048] grayImage =
      .ok "Black Rot" := by
  simp only [singleAppPredict, singleLoadModel, resnet50FcInFeatures, NUM_CLASSES]
  rw [if_pos (sdMatches_single_zero 2048 4)]
  dsimp only
  have hf : layersForward [Layer.linear 2048 4] [zeroLinear 4 2048] [] =
      some (List.replicate 4 (0 : ℚ)) := by
    show some (linearForward (zeroLinear 4 2048) []) = _
    rw [linearForward_zero_nil]
  rw [hf]
  dsimp only
  rw [show torchMax (List.replicate 4 (0 : ℚ)) = some (0, 0) from by decide]
  rfl

/-- **C8 counterexample** — In the single-crop grape app the claim fails:
the advice-API key is the hardcoded source literal (which starts with
"sk-", so the request is always attempted), and a transport-level network
failure of the advice request is an uncaught exception that escapes the
script run instead of degrading gracefully. -/
theorem advice_netError_crashes_single_app :
    pyStartsWith OPENROUTER_API_KEY "sk-" = true ∧
    (singleAppPage (fun _ => []) [zeroLinear 4 2048] grayImage
        (.netError "ConnectionError")).raised = some "ConnectionError" := by
  refine ⟨rfl, ?_⟩
  simp only [singleAppPage, singlePredict_zero]
  rfl

/-- **C8 (amended)** — In the multi-crop app the claim holds: the Gemini
key is sourced from the environment variable first and the Streamlit
secret store second, a missing/empty key only replaces the AI sidebar with
an info notice, and every advice failure is caught, so the
prediction-and-static-remedy output and the (absent) escaping exception of
a page run are independent of the key sourcing, the toggle, and the advice
outcome.  In the single-crop app the key is a hardcoded source literal; a
non-200 advice response degrades to a warning without raising, and while a
transport-level failure of the advice request raises an uncaught
exception, the prediction-and-static-remedy output, rendered before the
call, is still independent of the advice outcome. -/
theorem advice_path_containment :
    (∀ crop bb sd img env secrets tog out env2 secrets2 tog2 out2,
      (multiAppPage crop bb sd img env secrets tog out).main =
        (multiAppPage crop bb sd img env2 secrets2 tog2 out2).main ∧
      (multiAppPage crop bb sd img env secrets tog out).raised =
        (multiAppPage crop bb sd img env2 secrets2 tog2 out2).raised) ∧
    (∀ env secrets, env "GEMINI_API_KEY" = none →
      geminiApiKey env secrets = secrets "GEMINI_API_KEY") ∧
    (∀ (env secrets : String → Option String) (k : String),
      env "GEMINI_API_KEY" = some k → k ≠ "" →
      geminiApiKey env secrets = some k) ∧
    (∀ pred tog out, multiSidebar none pred tog out =
      [.info "Please set your Google Gemini API key as an environment variable (GEMINI_API_KEY) or in Streamlit secrets."]) ∧
    (∀ (s : Nat) (b : String), s ≠ 200 → singleAdviceSection (.response s b) =
      ([.warning "DeepSeek API call failed."], none)) ∧
    (∀ m, singleAdviceSection (.netError m) = ([], some m)) ∧
    (∀ bb sd img r r2,
      (singleAppPage bb sd img r).main = (singleAppPage bb sd img r2).main) := by
  refine ⟨?_, ?_, ?_, ?_, ?_, ?_, ?_⟩
  · intro crop bb sd img env secrets tog out env2 secrets2 tog2 out2
    cases hp : multiAppPredict crop bb sd img <;>
      cases hr : resolve crop <;>
      simp [multiAppPage, hp, hr]
  · intro env secrets h
    simp [geminiApiKey, h]
  · intro env secrets k h hk
    simp [geminiApiKey, h, hk]
  · intro pred tog out
    simp [multiSidebar, keyTruthy]
  · intro s b hs
    simp only [singleAdviceSection]
    rw [if_pos pyStartsWith_key]
    rw [if_neg hs]
  · intro m
    simp only [singleAdviceSection]
    rw [if_pos pyStartsWith_key]
  · intro bb sd img r r2
    cases hp : singleAppPredict bb sd img with
    | error e => simp [singleAppPage, hp]
    | ok label =>
      simp only [singleAppPage, hp]
      cases singleLookupAdvice label <;> rfl

/-- **C8 witness**: key sourcing from secrets and from the environment, a
non-200 degradation, and a caught-free transport failure, at concrete
inputs. -/
theorem advice_path_containment_witness :
    geminiApiKey (fun _ => none) (fun _ => some "SECRET") = some "SECRET" ∧
    geminiApiKey (fun _ => some "ENVKEY") (fun _ => none) = some "ENVKEY" ∧
    singleAdviceSection (.response 500 "oops") =
      ([.warning "DeepSeek API call failed."], none) ∧
    singleAdviceSection (.netError "timeout") = ([], some "timeout") := by
  obtain ⟨-, h2, h3, -, h5, h6, -⟩ := advice_path_containment
  exact ⟨h2 _ _ rfl, h3 _ _ "ENVKEY" rfl (by decide), h5 500 "oops" (by decide),
    h6 "timeout"⟩

/-- **C9** — `load_and_configure_model` is memoized on its argument tuple
(path, class count, head tag): from any cache state, a second call with the
same arguments returns the same result as the first — in particular the
same underlying model instance on success — and leaves the state of the
first call untouched, so the weights file is not read again. -/
theorem build_cache_idempotent (path : String) (nc : Nat) (fc : String)
    (c : ResourceCache) :
    (load_and_configure_model_cached path nc fc
        (load_and_configure_model_cached path nc fc c).2).1 =
      (load_and_configure_model_cached path nc fc c).1 ∧
    (load_and_configure_model_cached path nc fc
        (load_and_configure_model_cached path nc fc c).2).2 =
      (load_and_configure_model_cached path nc fc c).2 := by
  cases hl : cacheLookup (path, nc, fc) c with
  | some id => simp [load_and_configure_model_cached, hl]
  | none =>
    cases hb : buildFcLayers resnet50FcInFeatures nc fc with
    | error e => simp [load_and_configure_model_cached, hl, hb]
    | ok ls =>
      have hl2 : cacheLookup (path, nc, fc)
          ⟨((path, nc, fc), c.loads) :: c.entries, c.loads + 1⟩ =
          some c.loads := by
        unfold cacheLookup
        rw [List.find?_cons_of_pos _ (by simp)]
        rfl
      simp [load_and_configure_model_cached, hl, hb, hl2]

/-- **C10** — The single-crop grape app and the multi-crop app's Grapes
row implement the same pipeline: same ordered label list, same weights
file, same 4-class single-linear head on the 2048-wide backbone, same
preprocessing — hence for every backbone, head weights and input image the
two predictions coincide. -/
theorem grape_apps_equivalent :
    grapesProfile.labels = class_names ∧
    grapesProfile.model_path = "resnet50_grapes.pt" ∧
    grapesProfile.num_classes = NUM_CLASSES ∧
    grapesProfile.fc_type = "single_linear" ∧
    buildFcLayers resnet50FcInFeatures grapesProfile.num_classes
      grapesProfile.fc_type = .ok [.linear resnet50FcInFeatures NUM_CLASSES] ∧
    singleTransform = multiTransform ∧
    ∀ backbone sd img, singleAppPredict backbone sd img =
      multiAppPredict "Grapes" backbone sd img := by
  refine ⟨rfl, rfl, rfl, rfl, rfl, rfl, ?_⟩
  intro bb sd img
  have hres : resolve "Grapes" = .ok grapesProfile := rfl
  simp only [multiAppPredict, hres, singleAppPredict, singleLoadModel,
    buildLoadedModel]
  rw [show buildFcLayers resnet50FcInFeatures grapesProfile.num_classes
      grapesProfile.fc_type =
      .ok [Layer.linear resnet50FcInFeatures NUM_CLASSES] from rfl]
  dsimp only
  by_cases hm :
      sdMatches [Layer.linear resnet50FcInFeatures NUM_CLASSES] sd = true
  · rw [if_pos hm]
    dsimp only
    rw [show singleInputTensor img = multiInputTensor img from rfl]
    cases hf : layersForward [Layer.linear resnet50FcInFeatures NUM_CLASSES] sd
        (bb (multiInputTensor img)) with
    | none => rfl
    | some out =>
      dsimp only
      cases htm : torchMax out with
      | none => simp [torchArgmax, htm]
      | some r =>
        obtain ⟨mv, k⟩ := r
        simp only [torchArgmax, htm, Option.map]
        rfl
  · rw [if_neg hm]

end Forge
